import Mathlib

/-!
Shallow embedding of the Resource Hosting coordinator
(`service/notification-manager/NotificationManager/src/ResourceHosting.cpp`)
from the IoTivity notification-manager subsystem, and proofs of the
specification claims about it.

Modelling conventions:
* `std::string` is Lean `String`; the character-window extraction done by
  `std::string::compare(pos, count, s)` is performed on `String.data`
  (the list of characters), which is what a byte-wise comparison does on
  the ASCII inputs this subsystem handles.
* `size_t` arithmetic wraps modulo `2^64` (`sizeTSub`).
* C++ exceptions become `Except CppException`; a function that cannot throw
  returns its state directly (totality of the embedding mirrors the absence
  of throwing operations in the source).
* `shared_ptr` identity for registry entries is modelled by giving every
  constructed `HostingObject` a fresh allocation id `oid`; the wrapped
  remote-resource pointer (`HostingObject::getRemoteResource`, nullable)
  is `Option RemoteObject`.
* External collaborators (presence subscription, discovery service) are
  modelled at their boundary: a subscription attempt is an
  `Except CppException PresenceSubscriber` supplied by the environment, and
  each `discoverResource` call is recorded in `issuedDiscoveries`.
-/

namespace ResourceHosting

/-- Kinds of C++ exception relevant to `ResourceHosting`:
`PlatformException` and `InvalidParameterException` (explicitly caught and
rethrown in `startHosting`), `std::out_of_range` (thrown by
`std::string::compare` when the position is past the end), and any other
exception type. -/
inductive CppException where
  | platformException
  | invalidParameterException
  | outOfRange
  | otherException
deriving DecidableEq

/-- A remote resource descriptor (`RemoteObjectPtr` target): transport
address, URI path and resource-instance identifier, the three fields read
by `isSameRemoteResource` (the identifier read is commented out in the
source). -/
structure RemoteObject where
  address : String
  uri : String
  id : String
deriving DecidableEq

/-- One mirror object (`HostingObjectPtr` target). `oid` is the allocation
identity of the underlying object (shared-pointer identity used by
`std::find` in `destroyedHostingObject`); `remoteResource` is what
`getRemoteResource()` returns, a nullable pointer. -/
structure HostingObject where
  oid : Nat
  remoteResource : Option RemoteObject
deriving DecidableEq

/-- Modelled from the spec: the presence subscription handle
(`PresenceSubscriber`, an external collaborator whose source is not part of
this subsystem).  The spec gives it states Unsubscribed/Subscribed with
`isSubscribed()` and `unsubscribe()`. -/
structure PresenceSubscriber where
  isSubscribing : Bool
deriving DecidableEq

/-- Modelled from the spec: `unsubscribe()` moves the handle to the
Unsubscribed state. -/
def PresenceSubscriber.unsubscribe (_p : PresenceSubscriber) : PresenceSubscriber :=
  { isSubscribing := false }

/-- One call to `DiscoveryManager::discoverResource(host, uri, type, cb)`,
recorded at the external boundary. -/
structure DiscoveryRequest where
  host : String
  uri : String
deriving DecidableEq

/-- The mutable state of the `ResourceHosting` coordinator object:
the registry `hostingObjectList`, the presence handle, a fresh-allocation
counter for constructed `HostingObject`s, and the trace of discovery
queries issued to the external discovery service. -/
structure RHState where
  hostingObjectList : List HostingObject
  presenceHandle : PresenceSubscriber
  nextOid : Nat
  issuedDiscoveries : List DiscoveryRequest
deriving DecidableEq

/-- The coordinator state right after construction: empty registry, no
subscription, nothing discovered. -/
def initialRHState : RHState :=
  { hostingObjectList := []
    presenceHandle := { isSubscribing := false }
    nextOid := 0
    issuedDiscoveries := [] }

/-- The C macro `HOSTING_TAG`, defined as `"/hosting"`. -/
def HOSTING_TAG : String := "/hosting"

/-- The C macro `HOSTING_TAG_SIZE`, defined as `(size_t)8`. -/
def HOSTING_TAG_SIZE : Nat := 8

/-- Unsigned `size_t` subtraction: wraps modulo `2^64`. -/
def sizeTSub (a b : Nat) : Nat :=
  (((a : Int) - (b : Int)) % ((2 : Int) ^ 64)).toNat

/-- Embeds `s.compare(pos, count, t) == 0` for `std::string`: throws
`std::out_of_range` when `pos > s.size()`; otherwise the window
`substr(pos, count)` is compared with `t`, and the comparison returns `0`
exactly when the window equals `t`. -/
def stringCompareEq (s : String) (pos count : Nat) (t : String) :
    Except CppException Bool :=
  if pos > s.data.length then Except.error CppException.outOfRange
  else Except.ok ((s.data.drop pos).take count == t.data)

/-- Embeds `ResourceHosting::isSameRemoteResource`: address equality and URI
equality; the ID comparison is commented out in the source. -/
def isSameRemoteResource (remoteResource_1 remoteResource_2 : RemoteObject) : Bool :=
  if remoteResource_1.address == remoteResource_2.address &&
     remoteResource_1.uri == remoteResource_2.uri then
    true
  else
    false

/-- The loop body accumulator of `ResourceHosting::findRemoteResource`:
`retObject` starts as `nullptr` and is overwritten by each entry whose
(non-null) remote resource matches the candidate. -/
def findRemoteResourceLoop (ret : Option HostingObject) (l : List HostingObject)
    (remoteResource : RemoteObject) : Option HostingObject :=
  match l with
  | [] => ret
  | it :: rest =>
      let ret' :=
        match it.remoteResource with
        | none => ret
        | some inListPtr =>
            if isSameRemoteResource inListPtr remoteResource then some it else ret
      findRemoteResourceLoop ret' rest remoteResource

/-- Embeds `ResourceHosting::findRemoteResource`. -/
def findRemoteResource (l : List HostingObject) (remoteResource : RemoteObject) :
    Option HostingObject :=
  findRemoteResourceLoop none l remoteResource

/-- Embeds `ResourceHosting::discoverHandler`.  The suffix test is
`discoverdUri.compare(discoverdUri.size()-HOSTING_TAG_SIZE, HOSTING_TAG_SIZE, HOSTING_TAG)`,
with the position computed in `size_t` arithmetic; on a non-match the
handler returns, otherwise a registry lookup decides between dropping the
candidate and admitting a freshly constructed `HostingObject` pushed at the
back of the list. -/
def discoverHandler (st : RHState) (remoteResource : RemoteObject) :
    Except CppException RHState := do
  let discoverdUri := remoteResource.uri
  let tagMatches ← stringCompareEq discoverdUri
      (sizeTSub discoverdUri.data.length HOSTING_TAG_SIZE) HOSTING_TAG_SIZE HOSTING_TAG
  if !tagMatches then
    return st
  else
    match findRemoteResource st.hostingObjectList remoteResource with
    | none =>
        let foundHostingObject : HostingObject :=
          { oid := st.nextOid, remoteResource := some remoteResource }
        return { st with
                  hostingObjectList := st.hostingObjectList ++ [foundHostingObject]
                  nextOid := st.nextOid + 1 }
    | some _ => return st

/-- Embeds `ResourceHosting::destroyedHostingObject`: `std::find` the first
registry entry equal (as a pointer) to the target and erase it; absent
targets leave the list unchanged. -/
def destroyedHostingObject (l : List HostingObject) (destroyedPtr : HostingObject) :
    List HostingObject :=
  match l with
  | [] => []
  | x :: xs =>
      if x = destroyedPtr then xs
      else x :: destroyedHostingObject xs destroyedPtr

/-- Embeds `ResourceHosting::stopHosting`.  The source reads

    // TODO clear list hostingObjectList
    if(presenceHandle.isSubscribing()) { presenceHandle.unsubscribe(); }
    for(auto it : hostingObjectList) { it.reset(); }

The range-for variable `it` is declared `auto` (by value), so each
iteration copies the `shared_ptr` out of the list and `reset()` nulls only
that local copy; the list elements, and hence their reference counts, are
untouched.  The loop is therefore modelled as a discarded map over copies,
and the registry field is returned unchanged. -/
def stopHosting (st : RHState) : RHState :=
  let st1 :=
    if st.presenceHandle.isSubscribing then
      { st with presenceHandle := st.presenceHandle.unsubscribe }
    else st
  let _resetCopies := st1.hostingObjectList.map
      (fun _it => (none : Option HostingObject))
  st1

/-- The constant `OC_MULTICAST_DISCOVERY_URI` from the external C stack headers (not
part of this subsystem's source); its concrete value is irrelevant to every
claim, which only ever mention the whole constant. -/
def OC_MULTICAST_DISCOVERY_URI : String := "/oic/res"

/-- Embeds `ResourceHosting::requestDiscovery(address)`: issues one
`discoverResource` call with host = `address` and the hosting
resource-type filter appended to the multicast discovery URI. -/
def requestDiscovery (address : String) (st : RHState) : RHState :=
  let host := address
  let uri := OC_MULTICAST_DISCOVERY_URI ++ "?rt=Resource.Hosting"
  { st with issuedDiscoveries := st.issuedDiscoveries ++ [{ host := host, uri := uri }] }

/-- Embeds `ResourceHosting::requestMulticastDiscovery()`: `requestDiscovery()`
with the default (empty) address. -/
def requestMulticastDiscovery (st : RHState) : RHState :=
  requestDiscovery "" st

/-- Embeds `ResourceHosting::requestMulticastPresence`: constructs the
`PresenceSubscriber` (an external call whose outcome `subscribeResult` is
supplied by the environment) and assigns it to `presenceHandle`; the
`catch(...) { throw; }` wrapper rethrows any exception unchanged, so a
failed construction leaves the state unmodified and surfaces the same
exception. -/
def requestMulticastPresence (subscribeResult : Except CppException PresenceSubscriber)
    (st : RHState) : RHState × Except CppException Unit :=
  match subscribeResult with
  | Except.error e => (st, Except.error e)
  | Except.ok h => ({ st with presenceHandle := h }, Except.ok ())

/-- Embeds `ResourceHosting::startHosting`: `requestMulticastPresence()` then
`requestMulticastDiscovery()`.  The `catch(PlatformException&) { throw; }`
and `catch(InvalidParameterException&) { throw; }` clauses rethrow those
kinds unchanged, and any exception of another kind is not caught at all,
so it also propagates unchanged; either way an exception from the
subscription step aborts before the discovery sweep. -/
def startHosting (subscribeResult : Except CppException PresenceSubscriber)
    (st : RHState) : RHState × Except CppException Unit :=
  match requestMulticastPresence subscribeResult st with
  | (st1, Except.error e) => (st1, Except.error e)
  | (st1, Except.ok _) => (requestMulticastDiscovery st1, Except.ok ())

/-- The enum `OCStackResult`: every enumerator named in the `presenceHandler`
switch, plus `unknownResult code` standing for any other (undefined or
future) value of the underlying C enum. -/
inductive OCStackResult where
  | OC_STACK_OK
  | OC_STACK_CONTINUE
  | OC_STACK_RESOURCE_CREATED
  | OC_STACK_RESOURCE_DELETED
  | OC_STACK_COMM_ERROR
  | OC_STACK_TIMEOUT
  | OC_STACK_PRESENCE_STOPPED
  | OC_STACK_PRESENCE_TIMEOUT
  | OC_STACK_PRESENCE_DO_NOT_HANDLE
  | OC_STACK_ERROR
  | OC_STACK_INVALID_URI
  | OC_STACK_INVALID_QUERY
  | OC_STACK_INVALID_IP
  | OC_STACK_INVALID_PORT
  | OC_STACK_INVALID_CALLBACK
  | OC_STACK_INVALID_METHOD
  | OC_STACK_INVALID_PARAM
  | OC_STACK_INVALID_OBSERVE_PARAM
  | OC_STACK_NO_MEMORY
  | OC_STACK_ADAPTER_NOT_ENABLED
  | OC_STACK_NOTIMPL
  | OC_STACK_NO_RESOURCE
  | OC_STACK_RESOURCE_ERROR
  | OC_STACK_SLOW_RESOURCE
  | OC_STACK_DUPLICATE_REQUEST
  | OC_STACK_NO_OBSERVERS
  | OC_STACK_OBSERVER_NOT_FOUND
  | OC_STACK_INVALID_OPTION
  | OC_STACK_VIRTUAL_DO_NOT_HANDLE
  | OC_STACK_MALFORMED_RESPONSE
  | OC_STACK_PERSISTENT_BUFFER_REQUIRED
  | OC_STACK_INVALID_REQUEST_HANDLE
  | OC_STACK_INVALID_DEVICE_INFO
  | OC_STACK_INVALID_JSON
  | unknownResult (code : Nat)
deriving DecidableEq

/-- Embeds `ResourceHosting::presenceHandler(ret, seq, address)`: the
OK/CONTINUE/RESOURCE_CREATED group triggers `requestDiscovery(address)`;
the departure/channel-failure group, the validation/unsupported group and
the `default:` case all just `break`.  The sequence number is unused, as in
the source.  The handler contains no throwing operation, which the total
return type records. -/
def presenceHandler (ret : OCStackResult) (_seq : Nat) (address : String)
    (st : RHState) : RHState :=
  match ret with
  | .OC_STACK_OK | .OC_STACK_CONTINUE | .OC_STACK_RESOURCE_CREATED =>
      requestDiscovery address st
  | .OC_STACK_RESOURCE_DELETED | .OC_STACK_COMM_ERROR | .OC_STACK_TIMEOUT
  | .OC_STACK_PRESENCE_STOPPED | .OC_STACK_PRESENCE_TIMEOUT
  | .OC_STACK_PRESENCE_DO_NOT_HANDLE | .OC_STACK_ERROR =>
      st
  | .OC_STACK_INVALID_URI | .OC_STACK_INVALID_QUERY | .OC_STACK_INVALID_IP
  | .OC_STACK_INVALID_PORT | .OC_STACK_INVALID_CALLBACK | .OC_STACK_INVALID_METHOD
  | .OC_STACK_INVALID_PARAM | .OC_STACK_INVALID_OBSERVE_PARAM | .OC_STACK_NO_MEMORY
  | .OC_STACK_ADAPTER_NOT_ENABLED | .OC_STACK_NOTIMPL | .OC_STACK_NO_RESOURCE
  | .OC_STACK_RESOURCE_ERROR | .OC_STACK_SLOW_RESOURCE | .OC_STACK_DUPLICATE_REQUEST
  | .OC_STACK_NO_OBSERVERS | .OC_STACK_OBSERVER_NOT_FOUND | .OC_STACK_INVALID_OPTION
  | .OC_STACK_VIRTUAL_DO_NOT_HANDLE | .OC_STACK_MALFORMED_RESPONSE
  | .OC_STACK_PERSISTENT_BUFFER_REQUIRED | .OC_STACK_INVALID_REQUEST_HANDLE
  | .OC_STACK_INVALID_DEVICE_INFO | .OC_STACK_INVALID_JSON =>
      st
  | .unknownResult _ =>
      st

/-- The process-wide static state behind `ResourceHosting::getInstance`:
`s_instance` (null until first construction, then the instance's allocation
id), the number of `new ResourceHosting()` constructions performed and the
number of `initializeResourceHosting()` runs. -/
structure GlobalState where
  s_instance : Option Nat
  constructionCount : Nat
  initCount : Nat
deriving DecidableEq

/-- The static state at process start: `s_instance(nullptr)`, nothing
constructed or initialized. -/
def initialGlobalState : GlobalState :=
  { s_instance := none, constructionCount := 0, initCount := 0 }

/-- Embeds `ResourceHosting::getInstance` (double-checked locking).  In the
sequential execution modelled here the inner null re-check under the lock
sees exactly what the outer check saw, so the branch collapses: if
`s_instance` is null, construct and initialize a fresh instance and store
it; otherwise return the stored instance untouched. -/
def getInstance (g : GlobalState) : Nat × GlobalState :=
  match g.s_instance with
  | none =>
      let inst := g.constructionCount
      (inst,
        { s_instance := some inst
          constructionCount := g.constructionCount + 1
          initCount := g.initCount + 1 })
  | some p => (p, g)

/-- A sequence of `n` successive calls to `getInstance`, returning the list
of returned instance pointers and the final static state. -/
def callsInstance (g : GlobalState) : Nat → List Nat × GlobalState
  | 0 => ([], g)
  | n + 1 =>
      let (p, g1) := getInstance g
      let (ps, g2) := callsInstance g1 n
      (p :: ps, g2)

/-- One run of the discovery-candidate callback on each descriptor in
turn, starting from `st`.  When an invocation throws, the exception
propagates into the collaborator-owned callback context; the coordinator
state it left behind (unchanged, since the throw happens before any
registry access) is the state the next invocation sees. -/
def runDiscoverSeq (st : RHState) : List RemoteObject → RHState
  | [] => st
  | r :: rs =>
      match discoverHandler st r with
      | Except.ok st1 => runDiscoverSeq st1 rs
      | Except.error _ => runDiscoverSeq st rs

/-- The registry-deduplication invariant: no two registry entries wrap
descriptors with equal (address, URI) pairs. -/
def dedupInv (l : List HostingObject) : Prop :=
  l.Pairwise (fun e1 e2 => ∀ r1 r2, e1.remoteResource = some r1 →
    e2.remoteResource = some r2 → ¬(r1.address = r2.address ∧ r1.uri = r2.uri))

/-! ## Helper lemmas (shared) -/

theorem isSame_iff (r1 r2 : RemoteObject) :
    isSameRemoteResource r1 r2 = true ↔ r1.address = r2.address ∧ r1.uri = r2.uri := by
  simp [isSameRemoteResource]

theorem destroyedHostingObject_not_mem (l : List HostingObject) (x : HostingObject)
    (h : x ∉ l) : destroyedHostingObject l x = l := by
  induction l with
  | nil => rfl
  | cons a as ih =>
      simp only [List.mem_cons, not_or] at h
      unfold destroyedHostingObject
      rw [if_neg (fun hax => h.1 hax.symm), ih h.2]

theorem findRemoteResourceLoop_cons (ret : Option HostingObject) (it : HostingObject)
    (rest : List HostingObject) (r : RemoteObject) :
    findRemoteResourceLoop ret (it :: rest) r =
      findRemoteResourceLoop
        (match it.remoteResource with
         | none => ret
         | some p => if isSameRemoteResource p r then some it else ret) rest r := rfl

/-- If the lookup loop ends on `nullptr`, the accumulator was `nullptr` and
every entry with a non-null descriptor failed the equality test. -/
theorem findRemoteResourceLoop_none (l : List HostingObject) :
    ∀ (ret : Option HostingObject) (r : RemoteObject),
      findRemoteResourceLoop ret l r = none →
      ret = none ∧ ∀ e ∈ l, ∀ r', e.remoteResource = some r' →
        isSameRemoteResource r' r = false := by
  induction l with
  | nil =>
      intro ret r h
      exact ⟨h, by simp⟩
  | cons it rest ih =>
      intro ret r h
      rw [findRemoteResourceLoop_cons] at h
      cases hrr : it.remoteResource with
      | none =>
          simp only [hrr] at h
          obtain ⟨hret, hrest⟩ := ih ret r h
          refine ⟨hret, ?_⟩
          intro e he r' her
          rcases List.mem_cons.mp he with rfl | hm
          · rw [hrr] at her; exact absurd her (by simp)
          · exact hrest e hm r' her
      | some p =>
          simp only [hrr] at h
          by_cases hs : isSameRemoteResource p r = true
          · rw [if_pos hs] at h
            obtain ⟨hret', _⟩ := ih _ r h
            exact absurd hret' (by simp)
          · rw [if_neg hs] at h
            obtain ⟨hret, hrest⟩ := ih ret r h
            refine ⟨hret, ?_⟩
            intro e he r' her
            rcases List.mem_cons.mp he with rfl | hm
            · rw [hrr] at her
              cases her
              exact Bool.eq_false_iff.mpr hs
            · exact hrest e hm r' her

/-- If the lookup loop returns an entry, it is either the accumulator or a
list entry whose non-null descriptor passed the equality test. -/
theorem findRemoteResourceLoop_some (l : List HostingObject) :
    ∀ (ret : Option HostingObject) (r : RemoteObject) (e : HostingObject),
      findRemoteResourceLoop ret l r = some e →
      ret = some e ∨ (e ∈ l ∧ ∃ r', e.remoteResource = some r' ∧
        isSameRemoteResource r' r = true) := by
  induction l with
  | nil =>
      intro ret r e h
      exact Or.inl h
  | cons it rest ih =>
      intro ret r e h
      rw [findRemoteResourceLoop_cons] at h
      cases hrr : it.remoteResource with
      | none =>
          simp only [hrr] at h
          rcases ih ret r e h with hacc | ⟨hm, hx⟩
          · exact Or.inl hacc
          · exact Or.inr ⟨List.mem_cons_of_mem _ hm, hx⟩
      | some p =>
          simp only [hrr] at h
          by_cases hs : isSameRemoteResource p r = true
          · rw [if_pos hs] at h
            rcases ih _ r e h with hacc | ⟨hm, hx⟩
            · cases hacc
              exact Or.inr ⟨List.mem_cons_self _ _, p, hrr, hs⟩
            · exact Or.inr ⟨List.mem_cons_of_mem _ hm, hx⟩
          · rw [if_neg hs] at h
            rcases ih ret r e h with hacc | ⟨hm, hx⟩
            · exact Or.inl hacc
            · exact Or.inr ⟨List.mem_cons_of_mem _ hm, hx⟩

/-- Entries whose wrapped descriptor is null are transparent to the lookup
loop: the result over any list equals the result over the sublist of
entries with non-null descriptors. -/
theorem findRemoteResourceLoop_filter (l : List HostingObject) :
    ∀ (ret : Option HostingObject) (r : RemoteObject),
      findRemoteResourceLoop ret l r =
        findRemoteResourceLoop ret (l.filter (fun x => x.remoteResource.isSome)) r := by
  induction l with
  | nil => intro ret r; rfl
  | cons it rest ih =>
      intro ret r
      rw [findRemoteResourceLoop_cons]
      cases hrr : it.remoteResource with
      | none =>
          have hf : (it :: rest).filter (fun x => x.remoteResource.isSome) =
              rest.filter (fun x => x.remoteResource.isSome) := by
            simp [List.filter, hrr]
          rw [hf]
          simp only [hrr]
          exact ih ret r
      | some p =>
          have hf : (it :: rest).filter (fun x => x.remoteResource.isSome) =
              it :: rest.filter (fun x => x.remoteResource.isSome) := by
            simp [List.filter, hrr]
          rw [hf, findRemoteResourceLoop_cons]
          simp only [hrr]
          exact ih _ r

/-- Every successful run of the discovery-candidate handler either leaves
the state unchanged (tag rejection, or dedup hit) or, when the registry
lookup found nothing, appends one freshly constructed mirror object
wrapping the candidate. -/
theorem discoverHandler_ok_cases (st st' : RHState) (r : RemoteObject)
    (h : discoverHandler st r = Except.ok st') :
    st' = st ∨
    (findRemoteResource st.hostingObjectList r = none ∧
     st' = { st with
              hostingObjectList := st.hostingObjectList ++ [⟨st.nextOid, some r⟩]
              nextOid := st.nextOid + 1 }) := by
  unfold discoverHandler at h
  simp only [] at h
  cases hc : stringCompareEq r.uri (sizeTSub r.uri.data.length HOSTING_TAG_SIZE)
      HOSTING_TAG_SIZE HOSTING_TAG with
  | error e =>
      rw [hc] at h
      simp [Bind.bind, Except.bind] at h
  | ok b =>
      rw [hc] at h
      simp only [Bind.bind, Except.bind] at h
      cases b with
      | false =>
          simp only [Bool.not_false, if_pos] at h
          simp only [pure, Except.pure, Except.ok.injEq] at h
          exact Or.inl h.symm
      | true =>
          simp only [Bool.not_true, Bool.false_eq_true, if_false] at h
          cases hf : findRemoteResource st.hostingObjectList r with
          | none =>
              simp only [hf, pure, Except.pure, Except.ok.injEq] at h
              exact Or.inr ⟨rfl, h.symm⟩
          | some x =>
              simp only [hf, pure, Except.pure, Except.ok.injEq] at h
              exact Or.inl h.symm

theorem discoverHandler_preserves_dedup (st st' : RHState) (r : RemoteObject)
    (h : discoverHandler st r = Except.ok st')
    (hinv : dedupInv st.hostingObjectList) : dedupInv st'.hostingObjectList := by
  rcases discoverHandler_ok_cases st st' r h with rfl | ⟨hf, rfl⟩
  · exact hinv
  · unfold dedupInv at hinv ⊢
    rw [List.pairwise_append]
    refine ⟨hinv, List.pairwise_singleton _ _, ?_⟩
    intro a ha b hb
    simp only [List.mem_singleton] at hb
    subst hb
    intro r1 r2 h1 h2 hcontra
    have hr2 : r2 = r := by injection h2 with h2'; exact h2'.symm
    rw [hr2] at hcontra
    have hfail := (findRemoteResourceLoop_none st.hostingObjectList none r hf).2 a ha r1 h1
    have hsame : isSameRemoteResource r1 r = true := (isSame_iff r1 r).mpr hcontra
    rw [hfail] at hsame
    exact Bool.false_ne_true hsame

theorem runDiscoverSeq_dedup_aux :
    ∀ (rs : List RemoteObject) (st : RHState), dedupInv st.hostingObjectList →
      dedupInv (runDiscoverSeq st rs).hostingObjectList := by
  intro rs
  induction rs with
  | nil => intro st hinv; exact hinv
  | cons r rest ih =>
      intro st hinv
      unfold runDiscoverSeq
      cases hstep : discoverHandler st r with
      | ok st1 => exact ih st1 (discoverHandler_preserves_dedup st st1 r hstep hinv)
      | error e => exact ih st hinv

/-! ## Claim theorems -/

/-- C7. Dedup equality: the registry deduplication test
`isSameRemoteResource` returns true exactly when the address strings are
equal and the URI strings are equal; the statement does not mention the
resource-instance identifier field, which therefore plays no part. -/
theorem isSameRemoteResource_spec (r1 r2 : RemoteObject) :
    isSameRemoteResource r1 r2 = true ↔ r1.address = r2.address ∧ r1.uri = r2.uri :=
  isSame_iff r1 r2

/-- C6. Removal is idempotent: removing a target that is absent from the
registry is a no-op (never an error, the function being total), and a
second removal of an already-removed target leaves the registry exactly as
one removal left it. -/
theorem destroyedHostingObject_idempotent (l : List HostingObject) (x : HostingObject) :
    (x ∉ l → destroyedHostingObject l x = l) ∧
    (x ∉ destroyedHostingObject l x →
      destroyedHostingObject (destroyedHostingObject l x) x = destroyedHostingObject l x) :=
  ⟨destroyedHostingObject_not_mem l x,
   fun h => destroyedHostingObject_not_mem (destroyedHostingObject l x) x h⟩

/-- Witness for C6 at a concrete registry and target. -/
theorem destroyedHostingObject_idempotent_witness :
    destroyedHostingObject
        (destroyedHostingObject [⟨0, none⟩, ⟨1, none⟩] ⟨1, none⟩) ⟨1, none⟩ =
      destroyedHostingObject [⟨0, none⟩, ⟨1, none⟩] ⟨1, none⟩ :=
  (destroyedHostingObject_idempotent [⟨0, none⟩, ⟨1, none⟩] ⟨1, none⟩).2 (by decide)

/-- C4. When the subscription step of `startHosting` fails with exception
kind `e`, the same kind `e` propagates to the caller (platform, invalid-
argument and any other kind each propagate unchanged, hence remain
distinguishable), no discovery query is issued, and the registry is left
exactly as it was — in particular, an empty registry remains empty. -/
theorem startHosting_subscribe_fail (e : CppException) (st : RHState) :
    (startHosting (Except.error e) st).2 = Except.error e ∧
    (startHosting (Except.error e) st).1.issuedDiscoveries = st.issuedDiscoveries ∧
    (startHosting (Except.error e) st).1.hostingObjectList = st.hostingObjectList := by
  refine ⟨rfl, rfl, rfl⟩

/-- C8. Singleton accessor: across any positive number of successive calls
to `getInstance` starting from the process-start static state, the
coordinator is constructed exactly once and initialized exactly once, and
every call returns the same instance. -/
theorem getInstance_singleton (n : Nat) :
    callsInstance initialGlobalState (n + 1) =
      (List.replicate (n + 1) 0,
       { s_instance := some 0, constructionCount := 1, initCount := 1 }) := by
  have stable : ∀ (m p a i : Nat),
      callsInstance { s_instance := some p, constructionCount := a, initCount := i } m =
        (List.replicate m p,
         { s_instance := some p, constructionCount := a, initCount := i }) := by
    intro m
    induction m with
    | zero => intro p a i; rfl
    | succ m ih => intro p a i; simp [callsInstance, getInstance, ih, List.replicate]
  simp [callsInstance, getInstance, initialGlobalState, stable, List.replicate]

/-- C2 (divergence evaluation). At a coordinator state holding one admitted
Mirror Object, `stopHosting` leaves the registry holding that same object:
the range-for in the source resets by-value copies of the shared pointers
and the list is never cleared, so the registry is not emptied. -/
theorem stopHosting_leaves_registry :
    (stopHosting { initialRHState with
        hostingObjectList := [⟨0, some ⟨"node-5683", "/a/light/hosting", "id-1"⟩⟩] }
      ).hostingObjectList =
      [⟨0, some ⟨"node-5683", "/a/light/hosting", "id-1"⟩⟩] ∧
    (stopHosting { initialRHState with
        hostingObjectList := [⟨0, some ⟨"node-5683", "/a/light/hosting", "id-1"⟩⟩] }
      ).hostingObjectList ≠ [] := by
  constructor
  · rfl
  · decide

/-- C3 (divergence evaluation). A candidate whose URI is shorter than the
8-character hosting tag makes the discovery-candidate handler raise
`std::out_of_range`: the `size_t` position `uri.size() - 8` wraps to
`2^64 - 6`, which exceeds the string's size, so `std::string::compare`
throws instead of rejecting the candidate silently. -/
theorem discoverHandler_short_uri_raises :
    discoverHandler initialRHState ⟨"node-1", "/a", "id-0"⟩ =
      Except.error CppException.outOfRange := by
  rfl

/-- C5. Presence dispatch: for a liveness event whose result class is
alive (`OC_STACK_OK`), continuing-announcement (`OC_STACK_CONTINUE`) or
resource-created (`OC_STACK_RESOURCE_CREATED`), the handler issues exactly
one discovery query, targeted at the origin address and carrying the
hosting resource-type filter; for every other result class — the
listed departure/failure and validation classes as well as any
undefined/future value — the handler changes nothing, and it never raises
(the embedding is total because the source handler contains no throwing
operation). -/
theorem presenceHandler_dispatch (ret : OCStackResult) (seq : Nat) (address : String)
    (st : RHState) :
    ((ret = .OC_STACK_OK ∨ ret = .OC_STACK_CONTINUE ∨ ret = .OC_STACK_RESOURCE_CREATED) →
      presenceHandler ret seq address st =
        { st with issuedDiscoveries := st.issuedDiscoveries ++
            [{ host := address, uri := OC_MULTICAST_DISCOVERY_URI ++ "?rt=Resource.Hosting" }] }) ∧
    ((ret ≠ .OC_STACK_OK ∧ ret ≠ .OC_STACK_CONTINUE ∧ ret ≠ .OC_STACK_RESOURCE_CREATED) →
      presenceHandler ret seq address st = st) := by
  constructor
  · rintro (rfl | rfl | rfl) <;> rfl
  · rintro ⟨h1, h2, h3⟩
    cases ret <;> first | rfl | exact absurd rfl h1 | exact absurd rfl h2 | exact absurd rfl h3

/-- Witness for C5: an alive event from `node-9` on the empty trace issues
exactly the one targeted filtered query, and a communication-error event
changes nothing. -/
theorem presenceHandler_dispatch_witness :
    presenceHandler .OC_STACK_OK 7 "node-9" initialRHState =
      { initialRHState with issuedDiscoveries :=
          [{ host := "node-9", uri := OC_MULTICAST_DISCOVERY_URI ++ "?rt=Resource.Hosting" }] } ∧
    presenceHandler .OC_STACK_COMM_ERROR 8 "node-9" initialRHState = initialRHState ∧
    presenceHandler (.unknownResult 999) 9 "node-9" initialRHState = initialRHState := by
  refine ⟨?_, ?_, ?_⟩
  · exact (presenceHandler_dispatch .OC_STACK_OK 7 "node-9" initialRHState).1 (Or.inl rfl)
  · exact (presenceHandler_dispatch .OC_STACK_COMM_ERROR 8 "node-9" initialRHState).2
      (by refine ⟨?_, ?_, ?_⟩ <;> decide)
  · exact (presenceHandler_dispatch (.unknownResult 999) 9 "node-9" initialRHState).2
      (by refine ⟨?_, ?_, ?_⟩ <;> decide)

/-- C1. Registry deduplication invariant: after any sequence of
discovery-candidate handler invocations starting from the empty registry,
no two registry entries wrap descriptors with equal (address, URI)
pairs. -/
theorem registry_dedup_invariant (rs : List RemoteObject) :
    dedupInv (runDiscoverSeq initialRHState rs).hostingObjectList :=
  runDiscoverSeq_dedup_aux rs initialRHState (List.Pairwise.nil)

/-- C9. Admission-gate boundary: a candidate whose URI is exactly the
8-character tag `"/hosting"` passes the suffix filter, and when the
registry lookup finds no (address, URI)-equal entry it is admitted: the
handler returns successfully with a new mirror object wrapping the
candidate appended to the registry. -/
theorem discoverHandler_admits_exact_tag (st : RHState) (r : RemoteObject)
    (huri : r.uri = "/hosting")
    (hfind : findRemoteResource st.hostingObjectList r = none) :
    discoverHandler st r = Except.ok
      { st with
         hostingObjectList := st.hostingObjectList ++ [⟨st.nextOid, some r⟩]
         nextOid := st.nextOid + 1 } := by
  unfold discoverHandler
  simp only [huri, hfind]
  rfl

/-- Witness for C9: the candidate `("node-1", "/hosting")` against the
empty registry is admitted as entry 0. -/
theorem discoverHandler_admits_exact_tag_witness :
    discoverHandler initialRHState ⟨"node-1", "/hosting", "id-7"⟩ = Except.ok
      { hostingObjectList := [⟨0, some ⟨"node-1", "/hosting", "id-7"⟩⟩]
        presenceHandle := { isSubscribing := false }
        nextOid := 1
        issuedDiscoveries := [] } :=
  discoverHandler_admits_exact_tag initialRHState ⟨"node-1", "/hosting", "id-7"⟩ rfl rfl

/-- C10. Lookup robustness: a registry entry whose wrapped remote
descriptor is null is never the result of the dedup lookup for any
candidate, and the lookup's result over the whole registry equals its
result over the sublist of entries with non-null descriptors — so a
null-descriptor entry never prevents (or alters) the admission decision;
the lookup is total by construction, the source's null check being what
makes the embedded definition well-defined without dereferencing. -/
theorem findRemoteResource_null_robust (l : List HostingObject) (r : RemoteObject)
    (e : HostingObject) (he : e ∈ l) (hnull : e.remoteResource = none) :
    findRemoteResource l r ≠ some e ∧
    findRemoteResource l r =
      findRemoteResource (l.filter (fun x => x.remoteResource.isSome)) r := by
  constructor
  · intro hsome
    rcases findRemoteResourceLoop_some l none r e hsome with hacc | ⟨_, r', hr', _⟩
    · exact Option.noConfusion hacc
    · rw [hnull] at hr'
      exact Option.noConfusion hr'
  · exact findRemoteResourceLoop_filter l none r

/-- Witness for C10 at a two-entry registry whose first entry wraps a null
descriptor. -/
theorem findRemoteResource_null_robust_witness :
    findRemoteResource
        [⟨0, none⟩, ⟨1, some ⟨"node-1", "/a/light/hosting", "id-1"⟩⟩]
        ⟨"node-1", "/a/light/hosting", "id-2"⟩ ≠ some ⟨0, none⟩ ∧
    findRemoteResource
        [⟨0, none⟩, ⟨1, some ⟨"node-1", "/a/light/hosting", "id-1"⟩⟩]
        ⟨"node-1", "/a/light/hosting", "id-2"⟩ =
      findRemoteResource
        (([⟨0, none⟩, ⟨1, some ⟨"node-1", "/a/light/hosting", "id-1"⟩⟩] :
            List HostingObject).filter (fun x => x.remoteResource.isSome))
        ⟨"node-1", "/a/light/hosting", "id-2"⟩ :=
  findRemoteResource_null_robust
    [⟨0, none⟩, ⟨1, some ⟨"node-1", "/a/light/hosting", "id-1"⟩⟩]
    ⟨"node-1", "/a/light/hosting", "id-2"⟩ ⟨0, none⟩ (by decide) rfl

end ResourceHosting
